import Mathlib

/-!
Shallow embedding of `src/python/app.py`, a one-file Flask application:

The module imports the framework (`flask`, also bound to the name
`flask_pkg`), builds the `Flask` instance `app`, registers the handler
`index` on the root path with `@app.get` and, when run as the main
program, calls `app.run(host="0.0.0.0", port=5000, debug=False)`.

The application registers one route (`GET /`) whose handler returns a JSON
body with the keys `status` and `flask_version`; the latter is the value of
the module attribute `flask_pkg.__version__` read inside the handler, i.e.
at request-handling time.  The framework's routing and default error
responses (404 for an unknown path, 405 for a known path with an
unregistered method) are modelled after Flask's documented dispatch
behaviour; this application defines no custom error handler, so those
defaults apply unchanged.
-/

namespace App

/-- HTTP methods relevant to the routing model. -/
inductive Method where
  | GET
  | POST
  | PUT
  | DELETE
  | PATCH
deriving DecidableEq, Repr

/-- An inbound HTTP request: a method, a path, and an optional query
string.  The handler and the routing table never inspect the query. -/
structure Request where
  method : Method
  path : String
  query : Option String
deriving DecidableEq, Repr

/-- An HTTP response produced by an application handler.  The body is the
JSON object as an ordered association list of string keys to string
values (both values in this application are strings). -/
structure HttpResponse where
  statusCode : Nat
  contentType : String
  body : List (String × String)
deriving DecidableEq, Repr

/-- The handler `index` from `app.py`, lines 7-11.  Its one free input is
the value of the module attribute `flask_pkg.__version__` at the moment
the handler runs.  `jsonify` serialises the dict in insertion order and
returns status 200 with content type `application/json`. -/
def index (version : String) : HttpResponse :=
  ⟨200, "application/json", [("status", "ok"), ("flask_version", version)]⟩

/-- A registered route: a (method, path) pair mapped to a handler.  The
handler receives the current `flask_pkg.__version__` value. -/
structure Route where
  method : Method
  path : String
  handler : String → HttpResponse

/-- The application's routing table.  `@app.get("/")` (line 6) registers
exactly one route: path `/`, method GET, handler `index`. -/
def appRoutes : List Route :=
  [⟨Method.GET, "/", index⟩]

/-- Mutable process state visible to the dispatcher: the routing table of
the `Flask` instance `app`, and the current value of the module attribute
`flask_pkg.__version__`. -/
structure ProcessState where
  routes : List Route
  flaskVersion : String

/-- Result of dispatching one request.  `methodNotAllowed` and `notFound`
stand for the framework's default 405 and 404 responses, which this
application does not customise. -/
inductive DispatchResult where
  | handled (r : HttpResponse)
  | methodNotAllowed
  | notFound
deriving DecidableEq, Repr

/-- HTTP status code of a dispatch result; the framework defaults carry
405 (method not allowed) and 404 (not found). -/
def statusOf : DispatchResult → Nat
  | .handled r => r.statusCode
  | .methodNotAllowed => 405
  | .notFound => 404

/-- Framework dispatch, modelled after Flask's documented routing: a
request whose (path, method) matches a registered route is handled by
that route's handler, reading `flask_pkg.__version__` at handling time;
a request whose path matches some route but whose method matches none
gets the default 405; any other path gets the default 404. -/
def dispatch (s : ProcessState) (req : Request) : DispatchResult :=
  match s.routes.find? (fun r => r.path == req.path && r.method == req.method) with
  | some r => .handled (r.handler s.flaskVersion)
  | none =>
      if s.routes.any (fun r => r.path == req.path) then
        .methodNotAllowed
      else
        .notFound

/-- The process state of this application: the routing table built when
the module loads, and the current framework version attribute. -/
def appState (version : String) : ProcessState :=
  ⟨appRoutes, version⟩

/-- Dispatch against this application's routing table. -/
def appDispatch (version : String) (req : Request) : DispatchResult :=
  dispatch (appState version) req

/-- One handling step as a state transformer: the handler reads the
process state but writes nothing back, so the state it returns is the
state it was given (lines 7-11 assign no variable and perform no call
with effects other than building the response). -/
def handleStep (s : ProcessState) (req : Request) : DispatchResult × ProcessState :=
  (dispatch s req, s)

/-- The listen configuration of `app.run` on line 15: host `0.0.0.0`,
port 5000, debug disabled. -/
structure RunConfig where
  host : String
  port : Nat
  debug : Bool
deriving DecidableEq, Repr

/-- The literal arguments of `app.run(host="0.0.0.0", port=5000,
debug=False)` on line 15. -/
def runConfig : RunConfig :=
  ⟨"0.0.0.0", 5000, false⟩

/-- The host `0.0.0.0` is the wildcard address INADDR_ANY: the server
binds to all network interfaces. -/
def bindsAllInterfaces (c : RunConfig) : Prop :=
  c.host = "0.0.0.0"

/-- Observable outcome of executing the module: the routes registered
while the module loads, whether the development server was started, and
with which listen configuration. -/
structure ModuleState where
  routes : List Route
  serverStarted : Bool
  listen : Option RunConfig

/-- Executing `app.py` top to bottom.  Lines 1-11 always run: they build
the `Flask` instance and register the single route.  Lines 13-15 run the
server only when the module is the main program (`__name__ ==
"__main__"`). -/
def moduleInit (isMain : Bool) : ModuleState :=
  if isMain then
    ⟨appRoutes, true, some runConfig⟩
  else
    ⟨appRoutes, false, none⟩

/-- Claim C1 (counterexample): the response body's keys are `status` and
`flask_version`; it does not contain a key `runtime_version`, so the claim
that the body contains exactly the keys `status` and `runtime_version` is
false at the concrete version string `3.0.0`. -/
theorem C1_runtime_version_key_cex :
    (index "3.0.0").body.map Prod.fst = ["status", "flask_version"] ∧
    "runtime_version" ∉ (index "3.0.0").body.map Prod.fst := by
  decide

/-- Claim C1 (amended): every GET request to the root path, with any query
string or none, is answered by the handler with status 200, content type
JSON, and a body whose keys are exactly `status` and `flask_version`, with
`status` equal to the string `ok` and `flask_version` equal to the version
string of the web framework dependency. -/
theorem C1_root_get_response_shape (v : String) (q : Option String) :
    appDispatch v ⟨Method.GET, "/", q⟩ = .handled (index v) ∧
    (index v).statusCode = 200 ∧
    (index v).contentType = "application/json" ∧
    (index v).body.map Prod.fst = ["status", "flask_version"] ∧
    (index v).body.lookup "status" = some "ok" ∧
    (index v).body.lookup "flask_version" = some v :=
  ⟨rfl, rfl, rfl, rfl, rfl, rfl⟩

/-- Claim C2: in every response produced by the root-path handler, the
value of the `status` field is the literal string `ok`. -/
theorem C2_status_always_ok (v : String) (q : Option String) :
    appDispatch v ⟨Method.GET, "/", q⟩ = .handled (index v) ∧
    (index v).body.lookup "status" = some "ok" :=
  ⟨rfl, rfl⟩

/-- Claim C3: for every GET request to the root path, with any query
string or with none, the response status code is 200, and the dispatch
result does not depend on the query string at all. -/
theorem C3_query_never_changes_status (v : String) (q q' : Option String) :
    statusOf (appDispatch v ⟨Method.GET, "/", q⟩) = 200 ∧
    appDispatch v ⟨Method.GET, "/", q⟩ = appDispatch v ⟨Method.GET, "/", q'⟩ :=
  ⟨rfl, rfl⟩

/-- Claim C4 (counterexample): the claim says the version field is read at
process start; the handler reads `flask_pkg.__version__` at
request-handling time instead.  Concretely, in a process whose attribute
held `2.0.0` at start and holds `3.0.0` when the request is handled, the
response carries `3.0.0`, not the process-start value `2.0.0`. -/
theorem C4_read_at_start_cex :
    appDispatch "3.0.0" ⟨Method.GET, "/", none⟩ = .handled (index "3.0.0") ∧
    (index "3.0.0").body.lookup "flask_version" = some "3.0.0" ∧
    (index "3.0.0").body.lookup "flask_version" ≠ some "2.0.0" := by
  decide

/-- Claim C4 (amended): the version-string field of the response equals
the framework module's version attribute as it stands at request-handling
time; this code never mutates that attribute, so within one running
process whose attribute is unchanged every response carries the same
value, and that value is non-empty whenever the dependency's version
string is non-empty. -/
theorem C4_version_stable_within_process (v : String) (q q' : Option String)
    (hne : v ≠ "") :
    appDispatch v ⟨Method.GET, "/", q⟩ = appDispatch v ⟨Method.GET, "/", q'⟩ ∧
    (index v).body.lookup "flask_version" = some v ∧
    (index v).body.lookup "flask_version" ≠ some "" := by
  refine ⟨rfl, rfl, ?_⟩
  intro hc
  exact hne (Option.some.inj hc)

/-- Witness for claim C4's amended theorem at the concrete version string
`3.0.0` and two distinct query strings. -/
theorem C4_version_stable_within_process_witness :
    appDispatch "3.0.0" ⟨Method.GET, "/", none⟩ =
      appDispatch "3.0.0" ⟨Method.GET, "/", some "a=1"⟩ ∧
    (index "3.0.0").body.lookup "flask_version" = some "3.0.0" ∧
    (index "3.0.0").body.lookup "flask_version" ≠ some "" :=
  C4_version_stable_within_process "3.0.0" none (some "a=1") (by decide)

/-- Claim C5: the handler is a pure, stateless, idempotent function from
request to response: one handling step returns the process state
unchanged, and issuing the same request N times yields N structurally
identical responses. -/
theorem C5_handler_pure_idempotent (v : String) (req : Request) (n : Nat) :
    handleStep (appState v) req = (appDispatch v req, appState v) ∧
    (List.replicate n req).map (appDispatch v) =
      List.replicate n (appDispatch v req) :=
  ⟨rfl, List.map_replicate⟩

/-- Claim C6: a POST to the root path matches no registered route (only
GET is registered for `/`), so it falls through to the framework's
default method-not-allowed response with status 405, not a custom
body. -/
theorem C6_post_root_method_not_allowed (v : String) (q : Option String) :
    appDispatch v ⟨Method.POST, "/", q⟩ = .methodNotAllowed ∧
    statusOf (appDispatch v ⟨Method.POST, "/", q⟩) = 405 :=
  ⟨rfl, rfl⟩

/-- Claim C7: when launched as the main program the server listens with
host `0.0.0.0` (all network interfaces), the fixed port 5000, and debug
and auto-reload mode disabled. -/
theorem C7_listen_config :
    bindsAllInterfaces runConfig ∧ runConfig.port = 5000 ∧
    runConfig.debug = false ∧ (moduleInit true).listen = some runConfig :=
  ⟨rfl, rfl, rfl, rfl⟩

/-- Claim C8: importing the module registers the root route but does not
start the server; the listen call runs exactly when the module is
executed as the main program. -/
theorem C8_import_does_not_start_server (isMain : Bool) :
    (moduleInit isMain).serverStarted = isMain ∧
    (moduleInit isMain).routes = appRoutes ∧
    (moduleInit false).serverStarted = false := by
  cases isMain <;> exact ⟨rfl, rfl, rfl⟩

/-- Claim C9: the application registers exactly one route: the root path
`/` bound to the GET method only. -/
theorem C9_exactly_one_route :
    appRoutes.map (fun r => (r.method, r.path)) = [(Method.GET, "/")] :=
  rfl

/-- Claim C10: the handler reads the framework module's version attribute
at request-handling time, so the version serialised into the response is
the attribute's current value, not a value captured at process start:
whenever the two differ, the response carries the current one. -/
theorem C10_version_read_at_request_time (startV curV : String)
    (h : startV ≠ curV) (q : Option String) :
    appDispatch curV ⟨Method.GET, "/", q⟩ = .handled (index curV) ∧
    (index curV).body.lookup "flask_version" = some curV ∧
    (index curV).body.lookup "flask_version" ≠ some startV := by
  refine ⟨rfl, rfl, ?_⟩
  intro hc
  exact h (Option.some.inj hc).symm

/-- Witness for claim C10's theorem: with process-start value `2.0.0` and
request-time value `3.0.0`, the response carries `3.0.0`. -/
theorem C10_version_read_at_request_time_witness :
    appDispatch "3.0.0" ⟨Method.GET, "/", none⟩ = .handled (index "3.0.0") ∧
    (index "3.0.0").body.lookup "flask_version" = some "3.0.0" ∧
    (index "3.0.0").body.lookup "flask_version" ≠ some "2.0.0" :=
  C10_version_read_at_request_time "2.0.0" "3.0.0" (by decide) none

end App
